import Mathlib

/-!
Verification development for the space-capital telemetry pipeline.

The embedded functions translate the metric-computation core of
`scripts/generate_telemetry.py`, `scripts/telemetry_updater.py`,
`scripts/summarize-market-data.py` and `data/generate_telemetry.py`.

Numbers are modelled by `ℚ` (with `ℝ` only where the Python code takes a
square root); a Python dict field that may be absent is `Option ℚ` and
`none` plays the role of a missing key (or a NaN where noted).
-/

namespace Telemetry

/-- Python truthiness of an optional float: `None` and `0.0` are falsy. -/
def truthy (o : Option ℚ) : Bool :=
  match o with
  | none => false
  | some q => q != 0

/-- `safe_float(val, default)` from generate_telemetry.py: `None` becomes the
default (the numeric-parse failure branch cannot arise for already-numeric
data). -/
def safe_float (val : Option ℚ) (default : ℚ := 0) : ℚ :=
  val.getD default

/-- `normalize(val, min_val, max_val, clamp=True)` from generate_telemetry.py,
stated for any linear ordered field so the same definition serves the
rational and the real computations. -/
def normalize {α : Type} [LinearOrderedField α] (val min_val max_val : α)
    (clamp : Bool := true) : α :=
  if max_val = min_val then 1/2
  else
    let norm := (val - min_val) / (max_val - min_val)
    if clamp then max 0 (min 1 norm) else norm

/-- `z_score(val, mean, std)` from generate_telemetry.py. -/
def z_score {α : Type} [LinearOrderedField α] (val mean std : α) : α :=
  if std = 0 then 0 else (val - mean) / std

/-- One OHLCV+indicator bar of the JSON variant (`scripts/generate_telemetry.py`).
Every field of the underlying dict may be absent. -/
structure Bar where
  t : Option ℚ := none
  c : Option ℚ := none
  h : Option ℚ := none
  v : Option ℚ := none
  g100 : Option ℚ := none
  g150 : Option ℚ := none
  g200 : Option ℚ := none
  hist : Option ℚ := none
  macd : Option ℚ := none
  signal : Option ℚ := none
  cross : Option ℚ := none
deriving Repr, DecidableEq

/-- The signal states produced by the classifiers. -/
inductive SignalState where
  | bull
  | bear
  | neutral
deriving Repr, DecidableEq

/-- `compute_signal_state(bar)` from scripts/generate_telemetry.py. -/
def compute_signal_state (bar : Bar) : SignalState :=
  let hist := safe_float bar.hist 0
  let cross := bar.cross
  let macd := safe_float bar.macd 0
  let signal := safe_float bar.signal 0
  if cross ≠ none then (if hist < 0 then .bear else .bull)
  else if |hist| > 1/10 then (if hist > 0 then .bull else .bear)
  else if macd > signal + 5/100 then .bull
  else if macd < signal - 5/100 then .bear
  else .neutral

/-- The classifier policy as the spec words it (§4.3): ordered rules, first
match wins — written from the spec, to be compared with
`compute_signal_state`. -/
def signal_policy_spec (bar : Bar) : SignalState :=
  let hist := safe_float bar.hist 0
  let macd := safe_float bar.macd 0
  let signal := safe_float bar.signal 0
  if bar.cross ≠ none then
    -- rule 1: crossover flagged, classify by histogram sign
    if hist < 0 then .bear else .bull
  else if |hist| > 1/10 then
    -- rule 2: strong histogram, classify by sign
    if hist > 0 then .bull else .bear
  else if macd > signal + 5/100 then .bull
  else if macd < signal - 5/100 then .bear
  else .neutral

/-- `compute_trend(bar, bars, lookback=20)` from scripts/generate_telemetry.py.
`bars[-lookback]` is the element at position `length - lookback`; Python's
`if g100 and price > 0` tests truthiness, so an absent or zero moving average
casts no vote, and likewise `if hist:` for `bar.get('hist', 0)`. -/
def compute_trend (bar : Bar) (bars : List Bar) (lookback : ℕ := 20) : ℚ :=
  let price := bar.c.getD 0
  let vote : Option ℚ → ℚ × ℕ → ℚ × ℕ := fun g sw =>
    if truthy g ∧ price > 0 then
      (sw.1 + (if price > g.getD 0 then 1 else -1), sw.2 + 1)
    else sw
  let sw0 := vote bar.g200 (vote bar.g150 (vote bar.g100 (0, 0)))
  let hist := bar.hist.getD 0
  let sw1 := if hist ≠ 0 then
      (sw0.1 + (if hist > 0 then 1 else -1), sw0.2 + 1)
    else sw0
  let sw2 :=
    if bars.length > lookback then
      let old_price := ((bars.getD (bars.length - lookback) {}).c).getD price
      if old_price > 0 then
        let momentum := (price - old_price) / old_price
        (sw1.1 + (normalize momentum (-2/10) (2/10) * 2 - 1), sw1.2 + 1)
      else sw1
    else sw1
  if sw2.2 > 0 then sw2.1 / (sw2.2 : ℚ) else 0

/-- `compute_momentum(bar)` from scripts/generate_telemetry.py. -/
def compute_momentum (bar : Bar) : ℚ :=
  let hist := safe_float bar.hist 0
  let macd := safe_float bar.macd 0
  let hist_norm := normalize hist (-1/2) (1/2) * 2 - 1
  let macd_norm := normalize macd (-2) 2 * 2 - 1
  hist_norm * 7/10 + macd_norm * 3/10

/-- The list of simple returns built by `compute_volatility` in
scripts/generate_telemetry.py: for `i` in `1 .. min(lookback+1, len)-1`,
compare `bars[-(i+1)]` with `bars[-i]`, skipping non-positive previous
closes. -/
def volatilityReturns (bars : List Bar) (lookback : ℕ) : List ℚ :=
  (List.range (min (lookback + 1) bars.length - 1)).filterMap fun j =>
    let i := j + 1
    let prev_close := ((bars.getD (bars.length - (i + 1)) {}).c).getD 0
    let curr_close := ((bars.getD (bars.length - i) {}).c).getD 0
    if prev_close > 0 then some ((curr_close - prev_close) / prev_close)
    else none

/-- Population mean of a list of rationals (`sum(xs)/len(xs)`). -/
def listMean (xs : List ℚ) : ℚ := xs.sum / (xs.length : ℚ)

/-- Population variance of a list of rationals, as generate_telemetry.py
computes it before taking `math.sqrt`. -/
def listVariance (xs : List ℚ) : ℚ :=
  (xs.map (fun r => (r - listMean xs) ^ 2)).sum / (xs.length : ℚ)

/-- `compute_volatility(bars, lookback=20)` from scripts/generate_telemetry.py:
standard deviation of the trailing returns, default `0.3` with insufficient
history. Real-valued because of `math.sqrt`. -/
noncomputable def compute_volatility (bars : List Bar) (lookback : ℕ := 20) : ℝ :=
  if bars.length < lookback + 1 then 3/10
  else
    let returns := volatilityReturns bars lookback
    if returns = [] then 3/10
    else Real.sqrt (listVariance returns)

/-- Python's `max` over a nonempty sequence (0 on the empty list, which the
callers never reach). -/
def pyMax (xs : List ℚ) : ℚ :=
  match xs with
  | [] => 0
  | x :: rest => rest.foldl max x

/-- `compute_drawdown(bars, lookback=50)` from scripts/generate_telemetry.py. -/
def compute_drawdown (bars : List Bar) (lookback : ℕ := 50) : ℚ :=
  if bars.length < 2 then 0
  else
    let recent_bars := bars.drop (bars.length - min lookback bars.length)
    let high_price := pyMax (recent_bars.map fun b => b.h.getD (b.c.getD 0))
    let current_price := ((recent_bars.getD (recent_bars.length - 1) {}).c).getD 0
    if high_price ≤ 0 then 0
    else (current_price - high_price) / high_price

/-- The trailing-window volume list of `compute_activity`
(`bars[-lookback:]`, with missing volumes read as 0). -/
def activityVolumes (bars : List Bar) (lookback : ℕ) : List ℚ :=
  (bars.drop (bars.length - min lookback bars.length)).map fun b =>
    safe_float b.v 0

/-- `compute_activity(bar, bars, lookback=20)` from
scripts/generate_telemetry.py. Real-valued because the volume standard
deviation goes through `math.sqrt`. -/
noncomputable def compute_activity (bar : Bar) (bars : List Bar)
    (lookback : ℕ := 20) : ℝ :=
  let current_vol := safe_float bar.v 0
  if bars.length < lookback then 1/2
  else
    let volumes := activityVolumes bars lookback
    let avg_vol : ℚ := if volumes ≠ [] then listMean volumes else 1
    let std_vol : ℝ :=
      if volumes ≠ [] then Real.sqrt (listVariance volumes) else 1
    if avg_vol = 0 then 1/2
    else normalize (z_score (current_vol : ℝ) (avg_vol : ℝ) std_vol) (-2) 2

/-- The visual-parameter record of scripts/generate_telemetry.py, over any
ordered field (the pipeline feeds it real-valued volatility and activity). -/
structure Visual (α : Type) where
  glow : α
  jitter : α
  thrust : α
  cohesion : α
  ring : α
deriving Repr, DecidableEq

/-- The visual mappings computed inline in `generate_telemetry`
(scripts/generate_telemetry.py lines 274–281). -/
def visual_params {α : Type} [LinearOrderedField α]
    (momentum volatility activity drawdown : α) : Visual α :=
  { glow := min 1 (activity * 7/10 + |momentum| * 3/10)
    jitter := min 1 (volatility * 15/10)
    thrust := min 1 (|momentum| * 2)
    cohesion := max 0 (1 - volatility - |drawdown|)
    ring := min 1 (volatility * 8/10) }

/-- `clamp(value, min_val, max_val)` from data/generate_telemetry.py for a
present (non-NaN) value; a NaN input maps to the midpoint and is modelled by
`clampNaN` below. -/
def clamp {α : Type} [LinearOrderedField α] (value min_val max_val : α) : α :=
  max min_val (min max_val value)

/-- The `pd.isna` branch of the CSV-variant `clamp`: a missing value clamps
to the midpoint of the range. -/
def clampNaN {α : Type} [LinearOrderedField α]
    (value : Option α) (min_val max_val : α) : α :=
  match value with
  | none => (min_val + max_val) / 2
  | some v => clamp v min_val max_val

/-- The visual-parameter record of data/generate_telemetry.py (the CSV
variant frames the fourth output as damage rather than cohesion). -/
structure CsvVisual (α : Type) where
  glow : α
  jitter : α
  thrust : α
  damage : α
deriving Repr, DecidableEq

/-- `compute_visual_params(trend, momentum, volatility, activity)` from
data/generate_telemetry.py. Note the jitter output is not clamped. -/
def compute_visual_params {α : Type} [LinearOrderedField α]
    (trend momentum volatility activity : α) : CsvVisual α :=
  { glow := clamp (|momentum| * 5/10 + activity * 5/10) (2/10) 1
    jitter := volatility * 3/10
    thrust := clamp (max 0 momentum * activity) 0 1
    damage := clamp (max 0 (-trend) * volatility) 0 1 }

/-- Round-half-to-even of a rational to an integer, the behaviour of Python's
`round` on an exact tie (non-tie values round to the nearer integer). -/
def roundHalfEven (y : ℚ) : ℤ :=
  let f := ⌊y⌋
  let r := y - (f : ℚ)
  if r < 1/2 then f
  else if 1/2 < r then f + 1
  else if f % 2 = 0 then f else f + 1

/-- Python's `round(x, n)` for `n` decimal digits, idealized to exact
rationals (banker's rounding at the scaled tie). -/
def pyround (x : ℚ) (n : ℕ) : ℚ :=
  (roundHalfEven (x * 10 ^ n) : ℚ) / 10 ^ n

/-- The fields of a per-ticker telemetry record that the portfolio
aggregator reads (`t['momentum']`, `t['volatility']`,
`t['risk']['stress']`, and `t['asOf']` of the first entry). -/
structure TickerTel where
  momentum : ℚ
  volatility : ℚ
  stress : ℚ
  asOf : ℚ
deriving Repr, DecidableEq

/-- The per-ticker health term of `generate_portfolio_telemetry`:
`max(0, 1 - stress) * 0.7 + max(0, momentum) * 0.3`. -/
def tickerHealth (t : TickerTel) : ℚ :=
  max 0 (1 - t.stress) * 7/10 + max 0 t.momentum * 3/10

/-- Running totals of the aggregation loop in
`generate_portfolio_telemetry`. -/
structure PortfolioAcc where
  total_health : ℚ
  total_momentum : ℚ
  total_volatility : ℚ
  total_stress : ℚ
  count : ℕ
deriving Repr, DecidableEq

/-- The portfolio record built by `generate_portfolio_telemetry`; the only
key not modelled is the constant `"type": "portfolio"` tag. -/
structure Portfolio where
  asOf : ℚ
  healthScore : ℚ
  volatility : ℚ
  drawdown : ℚ
  sentiment : ℚ
  dayChange : ℚ
  avgMomentum : ℚ
  avgVolatility : ℚ
  avgStress : ℚ
  tickerCount : ℕ
deriving Repr, DecidableEq

/-- The Python exception the aggregator can raise: subscripting `None`
(as `ticker_telemetries[0]['asOf']` does when the first entry is `None`)
is a TypeError. -/
inductive PyError where
  | typeError
deriving Repr, DecidableEq

/-- `generate_portfolio_telemetry(ticker_telemetries)` from
scripts/generate_telemetry.py: `None` entries are skipped by the loop, an
empty input or a zero count returns `None` before the result record is
built, otherwise the averages are rounded to 4 decimals, sentiment is
`normalize(avg_momentum, -0.5, 0.5)`, and building the record evaluates
`ticker_telemetries[0]['asOf'] if ticker_telemetries else 0` — which raises
TypeError when the first entry is `None`. The loop body accumulating the
running totals: -/
def portfolioStep (a : PortfolioAcc) (t? : Option TickerTel) : PortfolioAcc :=
  match t? with
  | none => a
  | some t =>
    { total_health := a.total_health + tickerHealth t
      total_momentum := a.total_momentum + t.momentum
      total_volatility := a.total_volatility + t.volatility
      total_stress := a.total_stress + t.stress
      count := a.count + 1 }

/-- The aggregation itself (see `portfolioStep` for the loop body); fallible
because of the `asOf` subscript on the first entry. -/
def generate_portfolio_telemetry (tts : List (Option TickerTel)) :
    Except PyError (Option Portfolio) :=
  if tts = [] then .ok none
  else
    let acc := tts.foldl portfolioStep ⟨0, 0, 0, 0, 0⟩
    if acc.count = 0 then .ok none
    else
      let avg_health := acc.total_health / (acc.count : ℚ)
      let avg_momentum := acc.total_momentum / (acc.count : ℚ)
      let avg_volatility := acc.total_volatility / (acc.count : ℚ)
      let avg_stress := acc.total_stress / (acc.count : ℚ)
      let sentiment := normalize avg_momentum (-1/2) (1/2)
      let asOfE : Except PyError ℚ :=
        match tts.head? with
        | none => .ok 0
        | some none => .error .typeError
        | some (some t0) => .ok t0.asOf
      match asOfE with
      | .error e => .error e
      | .ok asOf =>
        .ok (some
          { asOf := asOf
            healthScore := pyround avg_health 4
            volatility := pyround avg_volatility 4
            drawdown := pyround (avg_stress * (-3/10)) 4
            sentiment := pyround sentiment 4
            dayChange := pyround (avg_momentum * (1/10)) 4
            avgMomentum := pyround avg_momentum 4
            avgVolatility := pyround avg_volatility 4
            avgStress := pyround avg_stress 4
            tickerCount := acc.count })

/-- Insertion of one element into an ascending list (helper for the sort
behind the numpy median). -/
def insertSorted (x : ℚ) : List ℚ → List ℚ
  | [] => [x]
  | y :: ys => if x ≤ y then x :: y :: ys else y :: insertSorted x ys

/-- Ascending insertion sort of a rational list. -/
def sortQ (xs : List ℚ) : List ℚ := xs.foldr insertSorted []

/-- `np.nanmedian` over a NaN-free array: middle of the sorted values, or
the mean of the two middles; `none` (NaN) on an empty array. -/
def npMedian (xs : List ℚ) : Option ℚ :=
  if xs = [] then none
  else
    let s := sortQ xs
    let n := s.length
    if n % 2 = 1 then some (s.getD (n / 2) 0)
    else some ((s.getD (n / 2 - 1) 0 + s.getD (n / 2) 0) / 2)

/-- `rolling_mad(x)` from scripts/telemetry_updater.py:
`1.4826 * median(|x - median(x)|)`, `none` (NaN) on empty input. -/
def rolling_mad (x : List ℚ) : Option ℚ :=
  match npMedian x with
  | none => none
  | some med =>
    (npMedian (x.map fun v => |v - med|)).map fun mad => 14826/10000 * mad

/-- `np.nanstd(rets)` over the NaN-free return values: `none` (NaN) when no
values remain, otherwise the population standard deviation. -/
noncomputable def nanstd (rets : List ℚ) : Option ℝ :=
  if rets = [] then none else some (Real.sqrt (listVariance rets))

/-- The `scale` expression of `compute_kernel_respect`
(scripts/telemetry_updater.py line 144):
`rolling_mad(rets) or np.nanstd(rets) or 1e-6`. Python's `or` falls through
on a falsy (`0.0`) left operand; NaN is truthy, so a NaN MAD short-circuits
the chain as NaN (`none`). -/
noncomputable def kernelScale (rets : List ℚ) : Option ℝ :=
  match rolling_mad rets with
  | none => none
  | some m =>
    if m ≠ 0 then some (m : ℝ)
    else
      match nanstd rets with
      | none => none
      | some s => if s ≠ 0 then some s else some (1/1000000)

/-- `clamp01(x)` from scripts/telemetry_updater.py. -/
def clamp01 (x : ℚ) : ℚ := max 0 (min 1 x)

/-- `np.sign` on a non-NaN float. -/
def npSign (q : ℚ) : ℤ :=
  if q > 0 then 1 else if q < 0 then -1 else 0

/-- `compute_macd_persistence(df)` from scripts/telemetry_updater.py. The
argument is the Histogram column when present (`none` when `safe_col` finds
no such column); a `none` entry inside the column is a NaN cell, whose
`np.sign` is NaN — kept by the `sign != 0` filter, counted in the mean's
denominator, and never equal to the majority sign. -/
def tu_compute_macd_persistence (histCol : Option (List (Option ℚ))) : ℚ :=
  match histCol with
  | none => 0
  | some hist =>
    let sign : List (Option ℤ) := hist.map fun h? => h?.map npSign
    let signNZ := sign.filter (· ≠ some 0)
    if signNZ.length < 10 then 0
    else
      let pos := signNZ.count (some 1)
      let neg := signNZ.count (some (-1))
      let majority : ℤ := if pos ≥ neg then 1 else -1
      clamp01 ((signNZ.count (some majority) : ℚ) / (signNZ.length : ℚ))

/-- The histogram-sign convention of summarize-market-data.py:
`1 if hist > 0 else -1`. -/
def smdSign (h : ℚ) : ℤ := if h > 0 then 1 else -1

/-- Run lengths of the sign sequence, with the current run's sign and
length carried along (the streak loop of `compute_macd_persistence` in
summarize-market-data.py). -/
def runsAux (cur : ℤ) (n : ℕ) : List ℤ → List ℕ
  | [] => [n]
  | s :: rest => if s = cur then runsAux cur (n + 1) rest else n :: runsAux s 1 rest

/-- Same-sign streak lengths of a sequence (empty input gives no streaks). -/
def signRuns : List ℤ → List ℕ
  | [] => []
  | s :: rest => runsAux s 1 rest

/-- Mean of a list of naturals as a rational. -/
def listMeanN (xs : List ℕ) : ℚ := (xs.sum : ℚ) / (xs.length : ℚ)

/-- `compute_macd_persistence(rows)` from summarize-market-data.py, with each
row reduced to its parsed `Histogram` cell (`none` for an absent or blank
cell). Fewer than 20 rows, or no histogram values at all, give the neutral
default `0.5`; otherwise the mean streak length is normalized against 10 and
rounded to 3 decimals. -/
def smd_compute_macd_persistence (rows : List (Option ℚ)) : ℚ :=
  if rows = [] ∨ rows.length < 20 then 1/2
  else
    let signs := rows.filterMap fun h? => h?.map smdSign
    let streaks := signRuns signs
    if streaks = [] then 1/2
    else pyround (min 1 (listMeanN streaks / 10)) 3

/-- The bar of the C1 scenario: close 100, volume 1000, no moving-average,
MACD or cross fields. -/
def constBar : Bar := { c := some 100, v := some 1000 }

/-- The C1 scenario input: 25 identical bars. -/
def constBars : List Bar := List.replicate 25 constBar

/-!  Theorems about the claims. -/

/-- C5: the signal classifier applies its rules in order with first match
winning — crossover flag, then strong histogram, then MACD-vs-signal margin,
then neutral — matching the spec's ordered decision policy, and it always
returns one of exactly bull, bear, neutral. -/
theorem signal_classifier_ordered_policy (bar : Bar) :
    compute_signal_state bar = signal_policy_spec bar ∧
    (compute_signal_state bar = SignalState.bull ∨
     compute_signal_state bar = SignalState.bear ∨
     compute_signal_state bar = SignalState.neutral) := by
  refine ⟨rfl, ?_⟩
  unfold compute_signal_state
  dsimp only
  split_ifs <;> simp

/-- C9: in the trend metric, a field that is present but exactly 0 casts no
sign vote: the trend score with a zero histogram (or zero g100/g150/g200
moving average) equals the score with that field absent, because Python's
truthiness test skips both. -/
theorem trend_zero_field_casts_no_vote (b : Bar) (bars : List Bar)
    (lookback : ℕ) :
    compute_trend { b with hist := some 0 } bars lookback
      = compute_trend { b with hist := none } bars lookback ∧
    compute_trend { b with g100 := some 0 } bars lookback
      = compute_trend { b with g100 := none } bars lookback ∧
    compute_trend { b with g150 := some 0 } bars lookback
      = compute_trend { b with g150 := none } bars lookback ∧
    compute_trend { b with g200 := some 0 } bars lookback
      = compute_trend { b with g200 := none } bars lookback := by
  refine ⟨?_, ?_, ?_, ?_⟩ <;> simp [compute_trend, truthy]

/-- C10: the CSV-variant visual mapper clamps glow into [0.2, 1], so glow is
at least 0.2 for every input, and it is exactly 0.2 when momentum and
activity are both 0. -/
theorem csv_glow_has_floor (trend momentum volatility activity : ℚ) :
    1/5 ≤ (compute_visual_params trend momentum volatility activity).glow ∧
    (compute_visual_params trend 0 volatility 0).glow = 1/5 := by
  constructor
  · show (1/5 : ℚ) ≤ max (2/10) _
    calc (1/5 : ℚ) ≤ 2/10 := by norm_num
      _ ≤ _ := le_max_left _ _
  · show max (2/10) (min 1 (|(0:ℚ)| * 5/10 + 0 * 5/10)) = 1/5
    norm_num

/-- C2: with the metric scalars in their documented ranges — trend and
momentum in [-1,1], raw-σ volatility ≥ 0, ATR-variant volatility and
activity in [0,1], drawdown ≤ 0 — every output of the JSON-variant visual
mapper (glow, jitter, thrust, cohesion, ring) and of the CSV-variant mapper
(glow, jitter, thrust, damage) lies in [0,1]. -/
theorem visual_mapper_outputs_bounded
    (trend momentum volRaw volAtr activity drawdown : ℝ)
    (hmom : momentum ∈ Set.Icc (-1 : ℝ) 1)
    (htrend : trend ∈ Set.Icc (-1 : ℝ) 1)
    (hvolRaw : 0 ≤ volRaw)
    (hvolAtr : volAtr ∈ Set.Icc (0 : ℝ) 1)
    (hact : activity ∈ Set.Icc (0 : ℝ) 1)
    (hdd : drawdown ≤ 0) :
    (visual_params momentum volRaw activity drawdown).glow ∈ Set.Icc (0:ℝ) 1 ∧
    (visual_params momentum volRaw activity drawdown).jitter ∈ Set.Icc (0:ℝ) 1 ∧
    (visual_params momentum volRaw activity drawdown).thrust ∈ Set.Icc (0:ℝ) 1 ∧
    (visual_params momentum volRaw activity drawdown).cohesion ∈ Set.Icc (0:ℝ) 1 ∧
    (visual_params momentum volRaw activity drawdown).ring ∈ Set.Icc (0:ℝ) 1 ∧
    (compute_visual_params trend momentum volAtr activity).glow ∈ Set.Icc (0:ℝ) 1 ∧
    (compute_visual_params trend momentum volAtr activity).jitter ∈ Set.Icc (0:ℝ) 1 ∧
    (compute_visual_params trend momentum volAtr activity).thrust ∈ Set.Icc (0:ℝ) 1 ∧
    (compute_visual_params trend momentum volAtr activity).damage ∈ Set.Icc (0:ℝ) 1 := by
  obtain ⟨hm1, hm2⟩ := hmom
  obtain ⟨hva1, hva2⟩ := hvolAtr
  obtain ⟨ha1, ha2⟩ := hact
  have habs : (0:ℝ) ≤ |momentum| := abs_nonneg _
  have hdabs : (0:ℝ) ≤ |drawdown| := abs_nonneg _
  simp only [visual_params, compute_visual_params, clamp, Set.mem_Icc]
  refine ⟨⟨le_min (by norm_num) (by nlinarith), min_le_left _ _⟩,
    ⟨le_min (by norm_num) (by nlinarith), min_le_left _ _⟩,
    ⟨le_min (by norm_num) (by nlinarith), min_le_left _ _⟩,
    ⟨le_max_left _ _, max_le (by norm_num) (by nlinarith)⟩,
    ⟨le_min (by norm_num) (by nlinarith), min_le_left _ _⟩,
    ⟨le_trans (by norm_num) (le_max_left _ _),
      max_le (by norm_num) (min_le_left _ _)⟩,
    ⟨by nlinarith, by nlinarith⟩,
    ⟨le_max_left _ _, max_le (by norm_num) (min_le_left _ _)⟩,
    ⟨le_max_left _ _, max_le (by norm_num) (min_le_left _ _)⟩⟩

/-- C2 witness: the bounds hold at the concrete metric values momentum = 1/2,
trend = -1/2, raw volatility = 3, ATR volatility = 1/4, activity = 1,
drawdown = -2. -/
theorem visual_mapper_outputs_bounded_witness :
    (visual_params (1/2 : ℝ) 3 1 (-2)).glow ∈ Set.Icc (0:ℝ) 1 ∧
    (visual_params (1/2 : ℝ) 3 1 (-2)).jitter ∈ Set.Icc (0:ℝ) 1 ∧
    (visual_params (1/2 : ℝ) 3 1 (-2)).thrust ∈ Set.Icc (0:ℝ) 1 ∧
    (visual_params (1/2 : ℝ) 3 1 (-2)).cohesion ∈ Set.Icc (0:ℝ) 1 ∧
    (visual_params (1/2 : ℝ) 3 1 (-2)).ring ∈ Set.Icc (0:ℝ) 1 ∧
    (compute_visual_params (-1/2 : ℝ) (1/2) (1/4) 1).glow ∈ Set.Icc (0:ℝ) 1 ∧
    (compute_visual_params (-1/2 : ℝ) (1/2) (1/4) 1).jitter ∈ Set.Icc (0:ℝ) 1 ∧
    (compute_visual_params (-1/2 : ℝ) (1/2) (1/4) 1).thrust ∈ Set.Icc (0:ℝ) 1 ∧
    (compute_visual_params (-1/2 : ℝ) (1/2) (1/4) 1).damage ∈ Set.Icc (0:ℝ) 1 :=
  visual_mapper_outputs_bounded (-1/2) (1/2) 3 (1/4) 1 (-2)
    (by constructor <;> norm_num) (by constructor <;> norm_num)
    (by norm_num) (by constructor <;> norm_num)
    (by constructor <;> norm_num) (by norm_num)

/-- C1: on 25 bars all with close 100 and volume 1000 and no
moving-average, MACD or cross fields, the metric engine returns
volatility 0, momentum 0, trend 0, activity 0.5, and the classifier
returns neutral. -/
theorem constant_bars_neutral_metrics :
    compute_volatility constBars = 0 ∧
    compute_momentum constBar = 0 ∧
    compute_trend constBar constBars = 0 ∧
    compute_activity constBar constBars = 1/2 ∧
    compute_signal_state constBar = SignalState.neutral := by
  refine ⟨?_, ?_, ?_, ?_, ?_⟩
  · have hvar : listVariance (volatilityReturns constBars 20) = 0 := by
      simp [listVariance, volatilityReturns, listMean, constBars, constBar,
        List.range_succ]
    have hne : volatilityReturns constBars 20 ≠ [] := by
      simp [volatilityReturns, constBars, constBar, List.range_succ]
    rw [compute_volatility]
    rw [if_neg (by simp [constBars])]
    simp only [hne, if_false, hvar]
    simp [Real.sqrt_zero]
  · simp [compute_momentum, safe_float, normalize, constBar]
    norm_num
  · simp [compute_trend, truthy, normalize, constBar, constBars]
    norm_num
  · rw [compute_activity]
    rw [if_neg (by simp [constBars])]
    have hvols : activityVolumes constBars 20 = List.replicate 20 1000 := by
      simp [activityVolumes, constBars, constBar, safe_float]
    have h1 : listVariance (List.replicate 20 (1000:ℚ)) = 0 := by
      simp [listVariance, listMean, List.sum_replicate]
      norm_num
    have h2 : listMean (List.replicate 20 (1000:ℚ)) = 1000 := by
      simp [listMean, List.sum_replicate]
      norm_num
    simp only [hvols, h1, h2]
    norm_num [z_score, normalize, safe_float, constBar, Real.sqrt_zero]
  · simp [compute_signal_state, safe_float, constBar]
    norm_num

/-- An initial accumulator bounds a `foldl max` from below. -/
theorem foldl_max_le_init (l : List ℚ) (a : ℚ) : a ≤ l.foldl max a := by
  induction l generalizing a with
  | nil => exact le_refl a
  | cons x xs ih => exact le_trans (le_max_left a x) (ih (max a x))

/-- Every member of a list bounds its `foldl max` from below. -/
theorem le_foldl_max {x : ℚ} (l : List ℚ) (a : ℚ) (hx : x ∈ l) :
    x ≤ l.foldl max a := by
  induction l generalizing a with
  | nil => cases hx
  | cons y ys ih =>
    rcases List.mem_cons.mp hx with h | h
    · subst h
      exact le_trans (le_max_right a x) (foldl_max_le_init ys _)
    · exact ih _ h

/-- Python's `max` dominates every member of the sequence. -/
theorem le_pyMax {x : ℚ} {xs : List ℚ} (hx : x ∈ xs) : x ≤ pyMax xs := by
  cases xs with
  | nil => cases hx
  | cons y ys =>
    rcases List.mem_cons.mp hx with h | h
    · subst h
      exact foldl_max_le_init ys x
    · exact le_foldl_max ys y h

/-- C3 counterexample: on the two-bar sequence whose last bar reports
high 1 but close 10 (high below close), the drawdown metric is 9, which is
positive — the claim's "always ≤ 0" fails on this input. -/
theorem drawdown_positive_on_inverted_bar :
    compute_drawdown
        [({ c := some 1, h := some 1 } : Bar), { c := some 10, h := some 1 }]
      = 9 ∧
    ¬ compute_drawdown
        [({ c := some 1, h := some 1 } : Bar), { c := some 10, h := some 1 }]
      ≤ 0 := by
  have h : compute_drawdown
      [({ c := some 1, h := some 1 } : Bar), { c := some 10, h := some 1 }]
      = 9 := by
    simp [compute_drawdown, pyMax]
    norm_num
  refine ⟨h, ?_⟩
  rw [h]
  norm_num

/-- C3 amended: for every bar sequence whose last bar's high, when both high
and close are present, is at least its close, the drawdown metric is ≤ 0;
with fewer than 2 bars it returns the default 0. -/
theorem drawdown_nonpositive (bars : List Bar)
    (hlast : ∀ b, bars.getLast? = some b →
      ∀ hv, b.h = some hv → ∀ cv, b.c = some cv → cv ≤ hv) :
    compute_drawdown bars ≤ 0 ∧
    (bars.length < 2 → compute_drawdown bars = 0) := by
  constructor
  · rw [compute_drawdown]
    by_cases hlen : bars.length < 2
    · simp [hlen]
    · rw [if_neg hlen]
      push_neg at hlen
      set k := bars.length - min 50 bars.length with hk
      have hkmin : 1 ≤ min 50 bars.length := by omega
      have hklt : k < bars.length := by omega
      have hlen2 : (bars.drop k).length = bars.length - k := List.length_drop k bars
      have hne : (bars.drop k).length - 1 < (bars.drop k).length := by omega
      have hidx : k + ((bars.drop k).length - 1) = bars.length - 1 := by omega
      have hlt : bars.length - 1 < bars.length := by omega
      have hlast_eq : (bars.drop k).getD ((bars.drop k).length - 1) {}
          = bars.getD (bars.length - 1) {} := by
        rw [List.getD_eq_getElem?_getD, List.getD_eq_getElem?_getD]
        rw [List.getElem?_eq_getElem hne, List.getElem?_eq_getElem hlt]
        simp only [List.getElem_drop, List.length_drop]
        have hx : k + (bars.length - k - 1) = bars.length - 1 := by omega
        simp only [hx]
      set lastBar := bars.getD (bars.length - 1) {} with hlb
      have hmem : lastBar ∈ bars.drop k := by
        have hmem0 : (bars.drop k).getD ((bars.drop k).length - 1) {}
            ∈ bars.drop k := by
          rw [List.getD_eq_getElem?_getD, List.getElem?_eq_getElem hne]
          exact List.getElem_mem _
        rwa [hlast_eq] at hmem0
      have hlastq : bars.getLast? = some lastBar := by
        rw [List.getLast?_eq_getElem?, List.getElem?_eq_getElem hlt, hlb]
        rw [List.getD_eq_getElem?_getD, List.getElem?_eq_getElem hlt]
        simp
      dsimp only
      rw [hlast_eq]
      set high := pyMax ((bars.drop k).map fun b => b.h.getD (b.c.getD 0)) with hh
      by_cases hhp : high ≤ 0
      · simp [hhp]
      · rw [if_neg hhp]
        push_neg at hhp
        have hfle : lastBar.h.getD (lastBar.c.getD 0) ≤ high :=
          le_pyMax (List.mem_map_of_mem _ hmem)
        have hcur : lastBar.c.getD 0 ≤ high := by
          cases hc : lastBar.c with
          | none => simp [hc]; linarith
          | some cv =>
            cases hhv : lastBar.h with
            | none => simpa [hhv, hc] using hfle
            | some hv =>
              have h1 : cv ≤ hv := hlast lastBar hlastq hv hhv cv hc
              have h2 : hv ≤ high := by simpa [hhv] using hfle
              simp [hc]
              linarith
        have hnum : lastBar.c.getD 0 - high ≤ 0 := by linarith
        exact div_nonpos_of_nonpos_of_nonneg hnum hhp.le
  · intro h
    simp [compute_drawdown, h]

/-- C3 witness: on a two-bar sequence with well-formed OHLC data (last bar
high 95, close 90) the drawdown is ≤ 0. -/
theorem drawdown_nonpositive_witness :
    compute_drawdown
        [({ c := some 100, h := some 100 } : Bar), { c := some 90, h := some 95 }]
      ≤ 0 :=
  (drawdown_nonpositive _ (by
    intro b hb hv hhv cv hc
    simp [List.getLast?] at hb
    subst hb
    simp at hhv hc
    subst hhv
    subst hc
    norm_num)).1

/-- Inserting into an all-`a` list keeps every element equal to `a`. -/
theorem insertSorted_all_eq {a x : ℚ} {l : List ℚ} (hx : x = a)
    (hl : ∀ y ∈ l, y = a) : ∀ y ∈ insertSorted x l, y = a := by
  induction l with
  | nil =>
    intro y hy
    simp only [insertSorted, List.mem_singleton] at hy
    exact hy ▸ hx
  | cons z zs ih =>
    intro y hy
    have hz : z = a := hl z (by simp)
    have hzs : ∀ y ∈ zs, y = a := fun y hy => hl y (by simp [hy])
    rw [insertSorted] at hy
    split_ifs at hy
    · rcases List.mem_cons.mp hy with h | h
      · exact h ▸ hx
      · exact hl y h
    · rcases List.mem_cons.mp hy with h | h
      · exact h ▸ hz
      · exact ih hzs y h

/-- Insertion grows the length by one. -/
theorem length_insertSorted (x : ℚ) (l : List ℚ) :
    (insertSorted x l).length = l.length + 1 := by
  induction l with
  | nil => rfl
  | cons z zs ih =>
    rw [insertSorted]
    split_ifs <;> simp [ih]

/-- Sorting an all-`a` list yields an all-`a` list of the same length. -/
theorem sortQ_all_eq {a : ℚ} {xs : List ℚ} (h : ∀ y ∈ xs, y = a) :
    (∀ y ∈ sortQ xs, y = a) ∧ (sortQ xs).length = xs.length := by
  induction xs with
  | nil => exact ⟨by simp [sortQ], rfl⟩
  | cons z zs ih =>
    have hz : z = a := h z (by simp)
    have hzs : ∀ y ∈ zs, y = a := fun y hy => h y (by simp [hy])
    obtain ⟨ih1, ih2⟩ := ih hzs
    constructor
    · exact insertSorted_all_eq hz ih1
    · show (insertSorted z (sortQ zs)).length = zs.length + 1
      rw [length_insertSorted, ih2]

/-- Indexing inside an all-`a` list gives `a`. -/
theorem getD_all_eq {a : ℚ} {l : List ℚ} (h : ∀ y ∈ l, y = a) {i : ℕ}
    (hi : i < l.length) (d : ℚ) : l.getD i d = a := by
  rw [List.getD_eq_getElem?_getD, List.getElem?_eq_getElem hi]
  exact h _ (List.getElem_mem hi)

/-- The numpy median of a nonempty all-`a` list is `a`. -/
theorem npMedian_all_eq {a : ℚ} {xs : List ℚ} (hne : xs ≠ [])
    (h : ∀ y ∈ xs, y = a) : npMedian xs = some a := by
  rw [npMedian, if_neg hne]
  obtain ⟨hall, hlen⟩ := sortQ_all_eq h
  have hn : 0 < (sortQ xs).length := by
    rw [hlen]
    exact List.length_pos.mpr hne
  dsimp only
  by_cases hodd : (sortQ xs).length % 2 = 1
  · rw [if_pos hodd, getD_all_eq hall (by omega)]
  · rw [if_neg hodd]
    have h2 : 2 ≤ (sortQ xs).length := by omega
    rw [getD_all_eq hall (by omega), getD_all_eq hall (by omega)]
    norm_num

/-- The MAD estimator on a nonempty all-equal list is exactly 0. -/
theorem rolling_mad_all_eq {a : ℚ} {xs : List ℚ} (hne : xs ≠ [])
    (h : ∀ y ∈ xs, y = a) : rolling_mad xs = some 0 := by
  have h0 : ∀ y ∈ xs.map (fun v => |v - a|), y = 0 := by
    intro y hy
    obtain ⟨v, hv, rfl⟩ := List.mem_map.mp hy
    rw [h v hv]
    simp
  have hne2 : xs.map (fun v => |v - a|) ≠ [] := by simpa using hne
  rw [rolling_mad, npMedian_all_eq hne h]
  dsimp only
  rw [npMedian_all_eq hne2 h0]
  simp

/-- The mean of a nonempty all-`a` list is `a`. -/
theorem listMean_all_eq {a : ℚ} {xs : List ℚ} (hne : xs ≠ [])
    (h : ∀ y ∈ xs, y = a) : listMean xs = a := by
  rw [listMean, List.sum_eq_card_nsmul xs a h, nsmul_eq_mul]
  have hn : (xs.length : ℚ) ≠ 0 :=
    Nat.cast_ne_zero.mpr fun h0 => hne (List.length_eq_zero.mp h0)
  field_simp

/-- The population variance of an all-`a` list is 0. -/
theorem listVariance_all_eq {a : ℚ} {xs : List ℚ} (hne : xs ≠ [])
    (h : ∀ y ∈ xs, y = a) : listVariance xs = 0 := by
  rw [listVariance]
  have hz : (xs.map fun r => (r - listMean xs) ^ 2).sum = 0 := by
    apply List.sum_eq_zero
    intro y hy
    obtain ⟨v, hv, rfl⟩ := List.mem_map.mp hy
    rw [h v hv, listMean_all_eq hne h]
    ring
  rw [hz, zero_div]

/-- C4 counterexample: on the all-equal input `[1, 1, 1]` the MAD-based
scale estimator `rolling_mad` returns exactly 0, not a small positive
epsilon. -/
theorem rolling_mad_zero_on_all_equal :
    rolling_mad [1, 1, 1] = some 0 ∧ ¬ (0 : ℚ) > 0 :=
  ⟨rolling_mad_all_eq (a := 1) (by simp) (by simp), by norm_num⟩

/-- C4 amended: on a nonempty all-equal input `rolling_mad` itself returns
0, and the epsilon guard lives in the caller — the `scale` or-chain of
`compute_kernel_respect` — which falls through the zero MAD and the zero
standard deviation to the small positive constant `1e-6`; on an empty input
both the MAD and the whole chain are NaN (modelled `none`), not an epsilon. -/
theorem kernel_scale_epsilon_on_degenerate (rets : List ℚ) (a : ℚ)
    (hne : rets ≠ []) (hall : ∀ x ∈ rets, x = a) :
    rolling_mad rets = some 0 ∧
    (kernelScale rets = some (1/1000000) ∧ (0 : ℝ) < 1/1000000) ∧
    (rolling_mad ([] : List ℚ) = none ∧ kernelScale ([] : List ℚ) = none) := by
  have hmad := rolling_mad_all_eq hne hall
  refine ⟨hmad, ⟨?_, by norm_num⟩, by simp [rolling_mad, npMedian, kernelScale]⟩
  rw [kernelScale, hmad]
  have hvar := listVariance_all_eq hne hall
  simp [nanstd, hne, hvar, Real.sqrt_zero]

/-- C4 witness: the degenerate-input behaviour at the concrete all-equal
returns list `[5, 5, 5]`. -/
theorem kernel_scale_epsilon_witness :
    rolling_mad [5, 5, 5] = some 0 ∧
    (kernelScale [5, 5, 5] = some (1/1000000) ∧ (0 : ℝ) < 1/1000000) ∧
    (rolling_mad ([] : List ℚ) = none ∧ kernelScale ([] : List ℚ) = none) :=
  kernel_scale_epsilon_on_degenerate [5, 5, 5] 5 (by simp) (by simp)

/-- The portfolio fold computes the running totals of the present (non-`None`)
ticker records on top of any starting accumulator. -/
theorem portfolio_foldl (tts : List (Option TickerTel)) (a : PortfolioAcc) :
    tts.foldl portfolioStep a =
      { total_health := a.total_health + ((tts.filterMap id).map tickerHealth).sum
        total_momentum :=
          a.total_momentum + ((tts.filterMap id).map TickerTel.momentum).sum
        total_volatility :=
          a.total_volatility + ((tts.filterMap id).map TickerTel.volatility).sum
        total_stress :=
          a.total_stress + ((tts.filterMap id).map TickerTel.stress).sum
        count := a.count + (tts.filterMap id).length } := by
  induction tts generalizing a with
  | nil => simp
  | cons t? rest ih =>
    cases t? with
    | none => simp [portfolioStep, ih]
    | some t =>
      simp only [List.foldl_cons, portfolioStep, ih, List.filterMap_cons,
        id_eq, List.map_cons, List.sum_cons, List.length_cons,
        PortfolioAcc.mk.injEq]
      refine ⟨by ring, by ring, by ring, by ring, by omega⟩

/-- C6 counterexample: on the non-empty input whose first entry is absent
and whose second entry is a present result, the aggregator raises TypeError
(the `asOf` subscript on the `None` first entry) instead of returning the
averaged record; in particular the outcome is not even the defined absent
result. -/
theorem portfolio_first_none_type_error :
    generate_portfolio_telemetry [none, some ⟨1, 2, 3, 4⟩]
      = .error .typeError ∧
    (Except.error PyError.typeError : Except PyError (Option Portfolio))
      ≠ .ok none := by
  constructor
  · rfl
  · simp

/-- C6 amended: the portfolio aggregator returns the defined absent result
on an empty input and on an input containing only absent results (no
division by zero is reachable); on an input whose first entry is a present
result it returns that entry's asOf together with the 4-decimal-rounded
simple means — healthScore, avgMomentum, avgVolatility, avgStress (and the
volatility, drawdown, dayChange values derived from those same averages) —
with sentiment = normalize(avgMomentum, -0.5, 0.5); but on an input whose
first entry is absent while a later entry is present, it raises TypeError
instead of returning the means. -/
theorem portfolio_aggregator_behaviour (tts : List (Option TickerTel))
    (t0 : TickerTel) (rest : List (Option TickerTel)) :
    (generate_portfolio_telemetry [] = .ok none) ∧
    ((∀ t ∈ tts, t = none) → generate_portfolio_telemetry tts = .ok none) ∧
    generate_portfolio_telemetry (some t0 :: rest) = .ok (some
      { asOf := t0.asOf
        healthScore :=
          pyround (listMean (((some t0 :: rest).filterMap id).map tickerHealth)) 4
        volatility :=
          pyround (listMean (((some t0 :: rest).filterMap id).map TickerTel.volatility)) 4
        drawdown :=
          pyround (listMean (((some t0 :: rest).filterMap id).map TickerTel.stress)
            * (-3/10)) 4
        sentiment := pyround
          (normalize (listMean (((some t0 :: rest).filterMap id).map TickerTel.momentum))
            (-1/2) (1/2)) 4
        dayChange :=
          pyround (listMean (((some t0 :: rest).filterMap id).map TickerTel.momentum)
            * (1/10)) 4
        avgMomentum :=
          pyround (listMean (((some t0 :: rest).filterMap id).map TickerTel.momentum)) 4
        avgVolatility :=
          pyround (listMean (((some t0 :: rest).filterMap id).map TickerTel.volatility)) 4
        avgStress :=
          pyround (listMean (((some t0 :: rest).filterMap id).map TickerTel.stress)) 4
        tickerCount := ((some t0 :: rest).filterMap id).length }) ∧
    (tts.head? = some none → tts.filterMap id ≠ [] →
      generate_portfolio_telemetry tts = .error .typeError) := by
  refine ⟨by simp [generate_portfolio_telemetry], ?_, ?_, ?_⟩
  · intro hall
    by_cases hts : tts = []
    · simp [hts, generate_portfolio_telemetry]
    · have hfm : tts.filterMap id = [] := by
        rw [List.filterMap_eq_nil_iff]
        intro t ht
        rw [hall t ht]
        rfl
      rw [generate_portfolio_telemetry, if_neg hts]
      rw [portfolio_foldl]
      simp [hfm]
  · rw [generate_portfolio_telemetry, if_neg (List.cons_ne_nil _ _)]
    rw [portfolio_foldl]
    dsimp only
    rw [if_neg (by simp)]
    have hmap : ∀ f : TickerTel → ℚ,
        (0 + (((some t0 :: rest).filterMap id).map f).sum)
          / ((((some t0 :: rest).filterMap id)).length : ℚ)
          = listMean (((some t0 :: rest).filterMap id).map f) := by
      intro f
      rw [zero_add, listMean, List.length_map]
    simp only [Nat.zero_add]
    rw [hmap, hmap, hmap, hmap]
    rfl
  · intro hhead hfm
    rcases tts with _ | ⟨t?, rest2⟩
    · simp at hhead
    · have ht : t? = none := by simpa using hhead
      subst ht
      rw [generate_portfolio_telemetry, if_neg (List.cons_ne_nil _ _)]
      rw [portfolio_foldl]
      dsimp only
      rw [if_neg (by simpa [Nat.zero_add, List.length_eq_zero] using hfm)]
      rfl

/-- C6 witness: the amended behaviour at concrete inputs — an all-absent
pair aggregates to the defined absent result, and an absent-first pair with
a present second entry raises TypeError. -/
theorem portfolio_aggregator_behaviour_witness :
    generate_portfolio_telemetry [none, none] = .ok none ∧
    generate_portfolio_telemetry [none, some ⟨5, 6, 7, 8⟩]
      = .error .typeError :=
  ⟨(portfolio_aggregator_behaviour [none, none] ⟨5, 6, 7, 8⟩ []).2.1
      (by simp),
   (portfolio_aggregator_behaviour [none, some ⟨5, 6, 7, 8⟩]
      ⟨5, 6, 7, 8⟩ []).2.2.2 (by simp) (by simp)⟩

/-- C7 counterexample: the telemetry_updater variant of the macdPersistence
metric returns 0, not the documented neutral default 0.5, when the histogram
column is absent. -/
theorem tu_macd_persistence_zero_default :
    tu_compute_macd_persistence none = 0 ∧ (0 : ℚ) ≠ 1/2 :=
  ⟨rfl, by norm_num⟩

/-- C7 amended: on under-computable input neither variant raises, but their
defaults differ — the summarize-market-data variant returns the documented
neutral 0.5 (fewer than 20 rows, or histogram absent from every row), while
the telemetry_updater variant returns 0 (histogram column absent, or fewer
than 10 nonzero histogram signs). -/
theorem macd_persistence_undercomputable_defaults
    (rows : List (Option ℚ)) (col : List (Option ℚ)) :
    (rows.length < 20 → smd_compute_macd_persistence rows = 1/2) ∧
    ((∀ h ∈ rows, h = none) → smd_compute_macd_persistence rows = 1/2) ∧
    tu_compute_macd_persistence none = 0 ∧
    (((col.map fun h? => h?.map npSign).filter (· ≠ some 0)).length < 10 →
      tu_compute_macd_persistence (some col) = 0) := by
  refine ⟨?_, ?_, rfl, ?_⟩
  · intro h
    rw [smd_compute_macd_persistence, if_pos (Or.inr h)]
  · intro hall
    by_cases hl : rows = [] ∨ rows.length < 20
    · rw [smd_compute_macd_persistence, if_pos hl]
    · rw [smd_compute_macd_persistence, if_neg hl]
      have hsigns : (rows.filterMap fun h? => h?.map smdSign) = [] := by
        rw [List.filterMap_eq_nil_iff]
        intro x hx
        rw [hall x hx]
        rfl
      dsimp only
      rw [hsigns]
      rfl
  · intro h
    rw [tu_compute_macd_persistence]
    dsimp only
    rw [if_pos h]

/-- C7 witness: the defaults at concrete under-computable inputs — 25 rows
with no histogram values for the summarize-market-data variant, and a
two-cell histogram column for the telemetry_updater variant. -/
theorem macd_persistence_defaults_witness :
    smd_compute_macd_persistence (List.replicate 25 none) = 1/2 ∧
    tu_compute_macd_persistence (some [some 1, none]) = 0 :=
  ⟨(macd_persistence_undercomputable_defaults
      (List.replicate 25 none) [some 1, none]).2.1 (by simp),
   (macd_persistence_undercomputable_defaults
      (List.replicate 25 none) [some 1, none]).2.2.2 (by simp [npSign])⟩

/-- `normalize` with clamping is monotone in its value argument when the
range is nondegenerate. -/
theorem normalize_le_normalize {a b lo hi : ℝ} (hlh : lo < hi) (hab : a ≤ b) :
    normalize a lo hi ≤ normalize b lo hi := by
  rw [normalize, normalize, if_neg (ne_of_gt hlh), if_neg (ne_of_gt hlh)]
  have hd : (0:ℝ) < hi - lo := sub_pos.mpr hlh
  simp only [if_true]
  gcongr

/-- `z_score` is monotone in its value argument for a nonnegative standard
deviation. -/
theorem z_score_mono {v1 v2 mean std : ℝ} (hstd : 0 ≤ std) (h : v1 ≤ v2) :
    z_score v1 mean std ≤ z_score v2 mean std := by
  rw [z_score, z_score]
  by_cases h0 : std = 0
  · simp [h0]
  · rw [if_neg h0, if_neg h0]
    have hpos : 0 < std := lt_of_le_of_ne hstd (Ne.symm h0)
    gcongr

/-- C8: raising the evaluation bar's volume while the trailing window (and
so its average and dispersion) stays fixed cannot decrease the activity
score. -/
theorem activity_monotone_in_last_volume (b : Bar) (bars : List Bar)
    (lookback : ℕ) (v1 v2 : ℚ) (h : v1 ≤ v2) :
    compute_activity { b with v := some v1 } bars lookback
      ≤ compute_activity { b with v := some v2 } bars lookback := by
  rw [compute_activity, compute_activity]
  dsimp only
  by_cases hlen : bars.length < lookback
  · rw [if_pos hlen, if_pos hlen]
  · rw [if_neg hlen, if_neg hlen]
    by_cases havg :
        (if activityVolumes bars lookback ≠ [] then
          listMean (activityVolumes bars lookback) else 1) = 0
    · rw [if_pos havg, if_pos havg]
    · rw [if_neg havg, if_neg havg]
      apply normalize_le_normalize (by norm_num)
      apply z_score_mono
      · split_ifs
        · exact Real.sqrt_nonneg _
        · norm_num
      · exact_mod_cast h

/-- C8 witness: over a fixed 20-bar window of volume 1000, activity at
last-bar volume 1 is at most activity at last-bar volume 2. -/
theorem activity_monotone_witness :
    compute_activity { ({} : Bar) with v := some 1 }
        (List.replicate 20 ({ v := some 1000 } : Bar)) 20
      ≤ compute_activity { ({} : Bar) with v := some 2 }
        (List.replicate 20 ({ v := some 1000 } : Bar)) 20 :=
  activity_monotone_in_last_volume {} (List.replicate 20 { v := some 1000 })
    20 1 2 (by norm_num)

end Telemetry



